import Mathlib

/-
Shallow embedding of drivers/media/i2c/ov13b10.c (Rockchip OV13B10 camera
sensor driver).  Pure data (register tables, mode catalog) is transcribed
verbatim; the i2c bus, clock, regulator, gpio, pinctrl and runtime-PM
environment is abstracted as explicit oracles, and every stateful driver
function is embedded in explicit state-passing style over a trace of the
i2c buffers it sends.  Machine integers are modelled as Nat / Int with
explicit reduction modulo 2^32 where the C code computes in u32 / s32.
-/

namespace Ov13b10

/-! ### Error codes (linux errno values; the driver returns their negations) -/

def EINVAL : Int := 22
def EIO : Int := 5
def ENODEV : Int := 19

/-! ### Register-map constants from the top of the driver -/

def CHIP_ID : Nat := 0x560d42
def OV13B10_REG_CHIP_ID : Nat := 0x300a

def OV13B10_REG_CTRL_MODE : Nat := 0x0100
def OV13B10_MODE_SW_STANDBY : Nat := 0x0
def OV13B10_MODE_STREAMING : Nat := 0x1

def OV13B10_REG_EXPOSURE : Nat := 0x3500
def OV13B10_EXPOSURE_MIN : Nat := 4
def OV13B10_EXPOSURE_STEP : Nat := 1
def OV13B10_VTS_MAX : Nat := 0x7fff

def OV13B10_REG_GAIN_H : Nat := 0x350a
def OV13B10_REG_GAIN_L : Nat := 0x350b
def OV13B10_GAIN_H_MASK : Nat := 0x07
def OV13B10_GAIN_H_SHIFT : Nat := 8
def OV13B10_GAIN_L_MASK : Nat := 0xff

def OV13B10_REG_TEST_PATTERN : Nat := 0x5080
def OV13B10_TEST_PATTERN_ENABLE : Nat := 0x80
def OV13B10_TEST_PATTERN_DISABLE : Nat := 0x0

def OV13B10_REG_VTS : Nat := 0x380e

def REG_NULL : Nat := 0xFFFF

def OV13B10_REG_VALUE_08BIT : Nat := 1
def OV13B10_REG_VALUE_16BIT : Nat := 2
def OV13B10_REG_VALUE_24BIT : Nat := 3

/-! ### v4l2 control ids (values of the uapi headers; only distinctness matters) -/

def V4L2_CID_VBLANK : Nat := 0x009e0901
def V4L2_CID_EXPOSURE : Nat := 0x00980911
def V4L2_CID_ANALOGUE_GAIN : Nat := 0x009e0903
def V4L2_CID_TEST_PATTERN : Nat := 0x009f0903

/-! ### Machine-integer helpers -/

/-- Reduction of a Nat to the value of a C u32. -/
def u32 (x : Nat) : Nat := x % 4294967296

/-- C unsigned 32-bit subtraction a - b (mod 2^32). -/
def u32sub (a b : Nat) : Nat := (u32 a + 4294967296 - u32 b) % 4294967296

/-- Reinterpretation of a u32 bit pattern as a C s32 value (gcc semantics). -/
def toS32 (x : Nat) : Int := if x < 2147483648 then (x : Int) else (x : Int) - 4294967296

/-- Wrap an Int to the s32 range, as gcc -fno-strict-overflow arithmetic does. -/
def s32wrap (v : Int) : Int := (v + 2147483648) % 4294967296 - 2147483648

/-- The kernel abs() macro on an s32 value: negation wraps at INT_MIN. -/
def kabs (v : Int) : Int := if v < 0 then s32wrap (-v) else v

/-- Conversion of a C signed value to u32 (reduction mod 2^32). -/
def u32ofInt (v : Int) : Nat := (v % 4294967296).toNat

/-! ### Register tables (transcribed verbatim from the driver source).
Note that none of the tables ends with a `REG_NULL` sentinel entry. -/

def ov13b10_global_regs : List (Nat × Nat) := [
  (0x0103, 0x01),
  (0x0303, 0x04),
  (0x0305, 0xaf),
  (0x0321, 0x00),
  (0x0323, 0x04),
  (0x0324, 0x01),
  (0x0325, 0xa4),
  (0x0326, 0x81),
  (0x0327, 0x04),
  (0x3012, 0x07),
  (0x3013, 0x32),
  (0x3107, 0x23),
  (0x3501, 0x0c),
  (0x3502, 0x10),
  (0x3504, 0x08),
  (0x3508, 0x07),
  (0x3509, 0xc0),
  (0x3600, 0x16),
  (0x3601, 0x54),
  (0x3612, 0x4e),
  (0x3620, 0x00),
  (0x3621, 0x68),
  (0x3622, 0x66),
  (0x3623, 0x03),
  (0x3662, 0x92),
  (0x3666, 0xbb),
  (0x3667, 0x44),
  (0x366e, 0xff),
  (0x366f, 0xf3),
  (0x3675, 0x44),
  (0x3676, 0x00),
  (0x367f, 0xe9),
  (0x3681, 0x32),
  (0x3682, 0x1f),
  (0x3683, 0x0b),
  (0x3684, 0x0b),
  (0x3704, 0x0f),
  (0x3706, 0x40),
  (0x3708, 0x3b),
  (0x3709, 0x72),
  (0x370b, 0xa2),
  (0x3714, 0x24),
  (0x371a, 0x3e),
  (0x3725, 0x42),
  (0x3739, 0x12),
  (0x3767, 0x00),
  (0x377a, 0x0d),
  (0x3789, 0x18),
  (0x3790, 0x40),
  (0x3791, 0xa2),
  (0x37c2, 0x04),
  (0x37c3, 0xf1),
  (0x37d9, 0x0c),
  (0x37da, 0x02),
  (0x37dc, 0x02),
  (0x37e1, 0x04),
  (0x37e2, 0x0a),
  (0x3800, 0x00),
  (0x3801, 0x00),
  (0x3802, 0x00),
  (0x3803, 0x08),
  (0x3804, 0x10),
  (0x3805, 0x8f),
  (0x3806, 0x0c),
  (0x3807, 0x47),
  (0x3808, 0x10),
  (0x3809, 0x70),
  (0x380a, 0x0c),
  (0x380b, 0x30),
  (0x380c, 0x04),
  (0x380d, 0x98),
  (0x380e, 0x0c),
  (0x380f, 0x7c),
  (0x3811, 0x0f),
  (0x3813, 0x09),
  (0x3814, 0x01),
  (0x3815, 0x01),
  (0x3816, 0x01),
  (0x3817, 0x01),
  (0x381f, 0x08),
  (0x3820, 0x88),
  (0x3821, 0x00),
  (0x3822, 0x14),
  (0x382e, 0xe6),
  (0x3c80, 0x00),
  (0x3c87, 0x01),
  (0x3c8c, 0x19),
  (0x3c8d, 0x1c),
  (0x3ca0, 0x00),
  (0x3ca1, 0x00),
  (0x3ca2, 0x00),
  (0x3ca3, 0x00),
  (0x3ca4, 0x50),
  (0x3ca5, 0x11),
  (0x3ca6, 0x01),
  (0x3ca7, 0x00),
  (0x3ca8, 0x00),
  (0x4008, 0x02),
  (0x4009, 0x0f),
  (0x400a, 0x01),
  (0x400b, 0x19),
  (0x4011, 0x21),
  (0x4017, 0x08),
  (0x4019, 0x04),
  (0x401a, 0x58),
  (0x4032, 0x1e),
  (0x4050, 0x02),
  (0x4051, 0x09),
  (0x405e, 0x00),
  (0x4066, 0x02),
  (0x4501, 0x00),
  (0x4502, 0x10),
  (0x4505, 0x00),
  (0x4800, 0x64),
  (0x481b, 0x3e),
  (0x481f, 0x30),
  (0x4825, 0x34),
  (0x4837, 0x0e),
  (0x484b, 0x01),
  (0x4883, 0x02),
  (0x5000, 0xff),
  (0x5001, 0x0f),
  (0x5045, 0x20),
  (0x5046, 0x20),
  (0x5047, 0xa4),
  (0x5048, 0x20),
  (0x5049, 0xa4),
  (0x0100, 0x01)
]

def mode_4208x3120_regs : List (Nat × Nat) := [
  (0x0305, 0xaf),
  (0x3501, 0x0c),
  (0x3662, 0x92),
  (0x3714, 0x24),
  (0x3739, 0x12),
  (0x37c2, 0x04),
  (0x37d9, 0x0c),
  (0x37e2, 0x0a),
  (0x3800, 0x00),
  (0x3801, 0x00),
  (0x3802, 0x00),
  (0x3803, 0x08),
  (0x3804, 0x10),
  (0x3805, 0x8f),
  (0x3806, 0x0c),
  (0x3807, 0x47),
  (0x3808, 0x10),
  (0x3809, 0x70),
  (0x380a, 0x0c),
  (0x380b, 0x30),
  (0x380c, 0x04),
  (0x380d, 0x98),
  (0x380e, 0x0c),
  (0x380f, 0x7c),
  (0x3810, 0x00),
  (0x3811, 0x0f),
  (0x3812, 0x00),
  (0x3813, 0x09),
  (0x3814, 0x01),
  (0x3816, 0x01),
  (0x3820, 0x88),
  (0x3c8c, 0x19),
  (0x4008, 0x02),
  (0x4009, 0x0f),
  (0x4050, 0x02),
  (0x4051, 0x09),
  (0x4501, 0x00),
  (0x4505, 0x00),
  (0x4837, 0x0e),
  (0x5000, 0xff),
  (0x5001, 0x0f)
]

def mode_4160x3120_regs : List (Nat × Nat) := [
  (0x0305, 0xaf),
  (0x3501, 0x0c),
  (0x3662, 0x92),
  (0x3714, 0x24),
  (0x3739, 0x12),
  (0x37c2, 0x04),
  (0x37d9, 0x0c),
  (0x37e2, 0x0a),
  (0x3800, 0x00),
  (0x3801, 0x00),
  (0x3802, 0x00),
  (0x3803, 0x08),
  (0x3804, 0x10),
  (0x3805, 0x8f),
  (0x3806, 0x0c),
  (0x3807, 0x47),
  (0x3808, 0x10),
  (0x3809, 0x40),
  (0x380a, 0x0c),
  (0x380b, 0x30),
  (0x380c, 0x04),
  (0x380d, 0x98),
  (0x380e, 0x0c),
  (0x380f, 0x7c),
  (0x3810, 0x00),
  (0x3811, 0x27),
  (0x3812, 0x00),
  (0x3813, 0x09),
  (0x3814, 0x01),
  (0x3816, 0x01),
  (0x3820, 0x88),
  (0x3c8c, 0x19),
  (0x4008, 0x02),
  (0x4009, 0x0f),
  (0x4050, 0x02),
  (0x4051, 0x09),
  (0x4501, 0x00),
  (0x4505, 0x00),
  (0x4837, 0x0e),
  (0x5000, 0xff),
  (0x5001, 0x0f)
]

def mode_4160x2340_regs : List (Nat × Nat) := [
  (0x0305, 0xaf),
  (0x3501, 0x0c),
  (0x3662, 0x92),
  (0x3714, 0x24),
  (0x3739, 0x12),
  (0x37c2, 0x04),
  (0x37d9, 0x0c),
  (0x37e2, 0x0a),
  (0x3800, 0x00),
  (0x3801, 0x00),
  (0x3802, 0x00),
  (0x3803, 0x08),
  (0x3804, 0x10),
  (0x3805, 0x8f),
  (0x3806, 0x0c),
  (0x3807, 0x47),
  (0x3808, 0x10),
  (0x3809, 0x40),
  (0x380a, 0x09),
  (0x380b, 0x24),
  (0x380c, 0x04),
  (0x380d, 0x98),
  (0x380e, 0x0c),
  (0x380f, 0x7c),
  (0x3810, 0x00),
  (0x3811, 0x27),
  (0x3812, 0x01),
  (0x3813, 0x8f),
  (0x3814, 0x01),
  (0x3816, 0x01),
  (0x3820, 0x88),
  (0x3c8c, 0x19),
  (0x4008, 0x02),
  (0x4009, 0x0f),
  (0x4050, 0x02),
  (0x4051, 0x09),
  (0x4501, 0x00),
  (0x4505, 0x00),
  (0x4837, 0x0e),
  (0x5000, 0xff),
  (0x5001, 0x0f)
]

def mode_2104x1560_regs : List (Nat × Nat) := [
  (0x0305, 0xaf),
  (0x3501, 0x06),
  (0x3662, 0x88),
  (0x3714, 0x28),
  (0x3739, 0x10),
  (0x37c2, 0x14),
  (0x37d9, 0x06),
  (0x37e2, 0x0c),
  (0x3800, 0x00),
  (0x3801, 0x00),
  (0x3802, 0x00),
  (0x3803, 0x08),
  (0x3804, 0x10),
  (0x3805, 0x8f),
  (0x3806, 0x0c),
  (0x3807, 0x47),
  (0x3808, 0x08),
  (0x3809, 0x38),
  (0x380a, 0x06),
  (0x380b, 0x18),
  (0x380c, 0x04),
  (0x380d, 0x98),
  (0x380e, 0x06),
  (0x380f, 0x3e),
  (0x3810, 0x00),
  (0x3811, 0x07),
  (0x3812, 0x00),
  (0x3813, 0x05),
  (0x3814, 0x03),
  (0x3816, 0x03),
  (0x3820, 0x8b),
  (0x3c8c, 0x18),
  (0x4008, 0x00),
  (0x4009, 0x05),
  (0x4050, 0x00),
  (0x4051, 0x05),
  (0x4501, 0x08),
  (0x4505, 0x00),
  (0x4837, 0x0e),
  (0x5000, 0xfd),
  (0x5001, 0x0d)
]

def mode_2080x1170_regs : List (Nat × Nat) := [
  (0x0305, 0xaf),
  (0x3501, 0x06),
  (0x3662, 0x88),
  (0x3714, 0x28),
  (0x3739, 0x10),
  (0x37c2, 0x14),
  (0x37d9, 0x06),
  (0x37e2, 0x0c),
  (0x3800, 0x00),
  (0x3801, 0x00),
  (0x3802, 0x00),
  (0x3803, 0x08),
  (0x3804, 0x10),
  (0x3805, 0x8f),
  (0x3806, 0x0c),
  (0x3807, 0x47),
  (0x3808, 0x08),
  (0x3809, 0x20),
  (0x380a, 0x04),
  (0x380b, 0x92),
  (0x380c, 0x04),
  (0x380d, 0x98),
  (0x380e, 0x06),
  (0x380f, 0x3e),
  (0x3810, 0x00),
  (0x3811, 0x13),
  (0x3812, 0x00),
  (0x3813, 0xc9),
  (0x3814, 0x03),
  (0x3816, 0x03),
  (0x3820, 0x8b),
  (0x3c8c, 0x18),
  (0x4008, 0x00),
  (0x4009, 0x05),
  (0x4050, 0x00),
  (0x4051, 0x05),
  (0x4501, 0x08),
  (0x4505, 0x00),
  (0x4837, 0x0e),
  (0x5000, 0xfd),
  (0x5001, 0x0d)
]

/-! ### The mode catalog -/

structure V4l2Fract where
  numerator : Nat
  denominator : Nat
  deriving Repr, DecidableEq

structure Ov13b10Mode where
  width : Nat
  height : Nat
  max_fps : V4l2Fract
  hts_def : Nat
  vts_def : Nat
  exp_def : Nat
  reg_list : List (Nat × Nat)
  deriving Repr, DecidableEq

def supported_modes : List Ov13b10Mode := [
  { width := 4208, height := 3120,
    max_fps := { numerator := 10000, denominator := 300000 },
    exp_def := 0x0c00, hts_def := 0x0498, vts_def := 0x0c7c,
    reg_list := mode_4208x3120_regs },
  { width := 4160, height := 3120,
    max_fps := { numerator := 10000, denominator := 300000 },
    exp_def := 0x0c00, hts_def := 0x0498, vts_def := 0x0c7c,
    reg_list := mode_4160x3120_regs },
  { width := 4160, height := 2340,
    max_fps := { numerator := 10000, denominator := 300000 },
    exp_def := 0x0c00, hts_def := 0x0498, vts_def := 0x0c7c,
    reg_list := mode_4160x2340_regs },
  { width := 2104, height := 1560,
    max_fps := { numerator := 10000, denominator := 600000 },
    exp_def := 0x0c00, hts_def := 0x0498, vts_def := 0x0c7c,
    reg_list := mode_2104x1560_regs },
  { width := 2080, height := 1170,
    max_fps := { numerator := 10000, denominator := 600000 },
    exp_def := 0x0c00, hts_def := 0x0498, vts_def := 0x0c7c,
    reg_list := mode_2080x1170_regs } ]

/-- A zero mode used as the (never-reached) default of list lookups. -/
def defaultMode : Ov13b10Mode :=
  { width := 0, height := 0, max_fps := { numerator := 0, denominator := 0 },
    hts_def := 0, vts_def := 0, exp_def := 0, reg_list := [] }

/-! ### The i2c bus model.

A bus transaction issued by `i2c_master_send` is recorded as the raw byte
buffer it sends; the trace is the list of issued buffers in order.  Whether
a send is transferred completely is decided by an oracle `sendFail` that
may look at the trace so far (so any failure pattern is expressible).
Reads (`i2c_transfer` with a write-address message and a read message) are
modelled by an oracle `xfer : reg -> len -> Option bytes`, `none` meaning a
transfer-count mismatch. -/

abbrev Trace := List (List Nat)

abbrev SendOracle := Trace → List Nat → Bool

abbrev XferOracle := Nat → Nat → Option (List Nat)

/-- The four bytes of `cpu_to_be32 val`, most significant first. -/
def cpu_to_be32 (val : Nat) : List Nat :=
  [val / 16777216 % 256, val / 65536 % 256, val / 256 % 256, val % 256]

/-- Big-endian accumulation of a 4-byte buffer (`be32_to_cpu`). -/
def be32_to_cpu (bytes : List Nat) : Nat :=
  bytes.foldl (fun acc b => acc * 256 + b) 0

/-- The buffer `ov13b10_write_reg` hands to `i2c_master_send`: the 16-bit
register address big-endian, followed by the low `len` bytes of the
big-endian encoding of `val`. -/
def writeRegBuf (reg len val : Nat) : List Nat :=
  [reg / 256 % 256, reg % 256] ++ (cpu_to_be32 val).drop (4 - len)

/-- Embedding of `ov13b10_write_reg` (write registers up to 4 at a time).
Only `len > 4` is rejected with -EINVAL; a short transfer yields - EIO. -/
def ov13b10_write_reg (sendFail : SendOracle) (reg len val : Nat) (tr : Trace) :
    Trace × Except Int Unit :=
  if len > 4 then (tr, Except.error (-EINVAL))
  else
    let buf := writeRegBuf reg len val
    if sendFail tr buf then (tr ++ [buf], Except.error (- EIO))
    else (tr ++ [buf], Except.ok ())

/-- Embedding of `ov13b10_write_array`: one single-byte write per entry, in
order, stopping at the first error or at an entry whose address is
`REG_NULL`.  The C loop has no bound check: it terminates only at a
sentinel entry, so the embedding's end-of-list success case has no C
counterpart and faithfully reflects the C only on sentinel-terminated
programs.  The driver's actual tables contain no sentinel entry
(`register_tables_lack_sentinel`), so on them the C loop reads past the
end of the array. -/
def ov13b10_write_array (sendFail : SendOracle) (regs : List (Nat × Nat)) (tr : Trace) :
    Trace × Except Int Unit :=
  match regs with
  | [] => (tr, Except.ok ())
  | (a, v) :: rest =>
    if a = REG_NULL then (tr, Except.ok ())
    else
      match ov13b10_write_reg sendFail a OV13B10_REG_VALUE_08BIT v tr with
      | (tr1, Except.ok _) => ov13b10_write_array sendFail rest tr1
      | (tr1, Except.error e) => (tr1, Except.error e)

/-- Embedding of `ov13b10_read_reg` (read registers up to 4 at a time).
`val` is the in-out parameter: it is returned unchanged on any failure,
since the C code only assigns `*val` after a successful transfer. -/
def ov13b10_read_reg (xfer : XferOracle) (reg len val : Nat) :
    Nat × Except Int Unit :=
  if len > 4 ∨ len = 0 then (val, Except.error (-EINVAL))
  else
    match xfer reg len with
    | none => (val, Except.error (- EIO))
    | some bytes =>
      (be32_to_cpu (List.replicate (4 - len) 0 ++ bytes.take len), Except.ok ())

/-! ### Mode selection -/

/-- Embedding of `ov13b10_get_reso_dist`.  The width and height fields are
u32, so the subtraction is unsigned and wraps; the kernel abs() macro
reinterprets the u32 difference as s32; the addition of the two absolute
values is ordinary (wrapping) int arithmetic. -/
def ov13b10_get_reso_dist (mode : Ov13b10Mode) (w h : Nat) : Int :=
  s32wrap (kabs (toS32 (u32sub mode.width w)) + kabs (toS32 (u32sub mode.height h)))

/-- The scan loop of `ov13b10_find_best_fit`: `best` / `bestDist` are
`cur_best_fit` / `cur_best_fit_dist`, `i` the running index; an entry
replaces the current best exactly when the best distance is still the -1
sentinel or the entry's distance is strictly smaller. -/
def bestFitLoop (w h : Nat) (modes : List Ov13b10Mode) (i best : Nat) (bestDist : Int) : Nat :=
  match modes with
  | [] => best
  | m :: rest =>
    let dist := ov13b10_get_reso_dist m w h
    if bestDist = -1 ∨ dist < bestDist then bestFitLoop w h rest (i + 1) i dist
    else bestFitLoop w h rest (i + 1) best bestDist

/-- Embedding of `ov13b10_find_best_fit` on a requested (width, height). -/
def ov13b10_find_best_fit (w h : Nat) : Ov13b10Mode :=
  supported_modes.getD (bestFitLoop w h supported_modes 0 0 (-1)) defaultMode

/-! ### Spec-side definitions for mode selection (written from the spec's
words, for the refinement comparison with the code's scan). -/

/-- Absolute difference of two Nats. -/
def ndist (a b : Nat) : Nat := (a - b) + (b - a)

/-- The Manhattan distance of the spec:
`|mode.width - requestedWidth| + |mode.height - requestedHeight|`. -/
def specDist (mode : Ov13b10Mode) (w h : Nat) : Nat :=
  ndist mode.width w + ndist mode.height h

/-- The catalog entry at index `i`. -/
def nthMode (i : Nat) : Ov13b10Mode := supported_modes.getD i defaultMode

/-! ### Driver state and the control translator -/

/-- The fields of a v4l2 control that the driver reads or modifies.  `val`
is the control's currently held value. -/
structure CtrlRange where
  minimum : Int
  maximum : Int
  step : Int
  default_value : Int
  val : Int
  deriving Repr, DecidableEq

/-- Modelled from the spec: `__v4l2_ctrl_modify_range` is v4l2 framework
code outside src/; per the spec it installs the new range and clamps the
currently held value (and default) into it. -/
def v4l2_ctrl_modify_range (c : CtrlRange) (mn mx st df : Int) : CtrlRange :=
  { minimum := mn, maximum := mx, step := st, default_value := df,
    val := min (max c.val mn) mx }

/-- The part of `struct ov13b10` that the embedded operations touch:
stream / power flags, the active mode, the exposure control, and the list
of (id, value) pairs of the handler's controls that have ops, in
registration order (vblank, exposure, analogue gain, test pattern). -/
structure DriverState where
  streaming : Bool
  power_on : Bool
  cur_mode : Ov13b10Mode
  exposure : CtrlRange
  ctrls : List (Nat × Int)
  deriving Repr, DecidableEq

/-- Return code of a bus operation as the C int the driver propagates. -/
def errCode : Except Int Unit → Int
  | Except.ok _ => 0
  | Except.error e => e

/-- Embedding of `ov13b10_enable_test_pattern`. -/
def ov13b10_enable_test_pattern (sendFail : SendOracle) (pattern : Nat) (tr : Trace) :
    Trace × Except Int Unit :=
  let val := if pattern ≠ 0 then (pattern - 1) ||| OV13B10_TEST_PATTERN_ENABLE
             else OV13B10_TEST_PATTERN_DISABLE
  ov13b10_write_reg sendFail OV13B10_REG_TEST_PATTERN OV13B10_REG_VALUE_08BIT val tr

/-- Embedding of `ov13b10_set_ctrl` for one control (id, value v).  The
VBLANK range cascade on the exposure control happens first; then, only if
the device is in use (`pm_runtime_get_if_in_use` nonzero, argument
`inUse`), the register write for the control is issued.  The C computes
`cur_mode->height + ctrl->val - 16` in u32 and widens to s64, hence the
`u32ofInt`; the VTS write value `ctrl->val + cur_mode->height` is likewise
a u32. -/
def ov13b10_set_ctrl (sendFail : SendOracle) (inUse : Bool) (id : Nat) (v : Int)
    (s : DriverState) (tr : Trace) : DriverState × Trace × Int :=
  let newMax : Int := (u32ofInt ((s.cur_mode.height : Int) + v - 16) : Int)
  let s :=
    if id = V4L2_CID_VBLANK then
      { s with exposure := v4l2_ctrl_modify_range s.exposure s.exposure.minimum newMax s.exposure.step s.exposure.default_value }
    else s
  if inUse = false then (s, tr, 0)
  else if id = V4L2_CID_EXPOSURE then
    let r := ov13b10_write_reg sendFail OV13B10_REG_EXPOSURE
      OV13B10_REG_VALUE_24BIT (u32ofInt v) tr
    (s, r.1, errCode r.2)
  else if id = V4L2_CID_ANALOGUE_GAIN then
    let r1 := ov13b10_write_reg sendFail OV13B10_REG_GAIN_H OV13B10_REG_VALUE_08BIT
      (u32ofInt (Int.land (Int.shiftRight v OV13B10_GAIN_H_SHIFT) (OV13B10_GAIN_H_MASK : Nat))) tr
    let r2 := ov13b10_write_reg sendFail OV13B10_REG_GAIN_L OV13B10_REG_VALUE_08BIT
      (u32ofInt (Int.land v (OV13B10_GAIN_L_MASK : Nat))) r1.1
    (s, r2.1, Int.lor (errCode r1.2) (errCode r2.2))
  else if id = V4L2_CID_VBLANK then
    let r := ov13b10_write_reg sendFail OV13B10_REG_VTS OV13B10_REG_VALUE_16BIT
      (u32ofInt (v + (s.cur_mode.height : Int))) tr
    (s, r.1, errCode r.2)
  else if id = V4L2_CID_TEST_PATTERN then
    let r := ov13b10_enable_test_pattern sendFail (u32ofInt v) tr
    (s, r.1, errCode r.2)
  else (s, tr, 0)

/-- Modelled from the spec: `v4l2_ctrl_handler_setup` is v4l2 framework
code outside src/; per the spec it re-applies every currently-held control
value through the driver's translator, in order, aborting at the first
error.  During the setup pass of `__ov13b10_start_stream` the device holds
a runtime-PM reference, so the translator sees the device as in use. -/
def v4l2_ctrl_handler_setup (sendFail : SendOracle) (ctrls : List (Nat × Int))
    (s : DriverState) (tr : Trace) : DriverState × Trace × Int :=
  match ctrls with
  | [] => (s, tr, 0)
  | (id, v) :: rest =>
    let r := ov13b10_set_ctrl sendFail true id v s tr
    if r.2.2 = 0 then v4l2_ctrl_handler_setup sendFail rest r.1 r.2.1
    else r

/-- Embedding of `__ov13b10_start_stream`: the active mode's register
program, then the handler setup pass, then the mode-control register set
to streaming. -/
def ov13b10_start_stream_inner (sendFail : SendOracle) (s : DriverState) (tr : Trace) :
    DriverState × Trace × Int :=
  match ov13b10_write_array sendFail s.cur_mode.reg_list tr with
  | (tr1, Except.error e) => (s, tr1, e)
  | (tr1, Except.ok _) =>
    let r := v4l2_ctrl_handler_setup sendFail s.ctrls s tr1
    if r.2.2 ≠ 0 then r
    else
      let r3 := ov13b10_write_reg sendFail OV13B10_REG_CTRL_MODE
        OV13B10_REG_VALUE_08BIT OV13B10_MODE_STREAMING r.2.1
      (r.1, r3.1, errCode r3.2)

/-- Embedding of `__ov13b10_stop_stream`: one write of the standby value to
the mode-control register. -/
def ov13b10_stop_stream_inner (sendFail : SendOracle) (tr : Trace) :
    Trace × Except Int Unit :=
  ov13b10_write_reg sendFail OV13B10_REG_CTRL_MODE OV13B10_REG_VALUE_08BIT
    OV13B10_MODE_SW_STANDBY tr

/-- Embedding of `ov13b10_s_stream`.  `pmRes` is the oracle result of
`pm_runtime_get_sync`.  The stop path discards the stop write's return
value; `ret` stays 0 there. -/
def ov13b10_s_stream (sendFail : SendOracle) (pmRes : Int) (onv : Bool)
    (s : DriverState) (tr : Trace) : DriverState × Trace × Int :=
  if onv = s.streaming then (s, tr, 0)
  else if onv then
    if pmRes < 0 then (s, tr, pmRes)
    else
      let r := ov13b10_start_stream_inner sendFail s tr
      if r.2.2 ≠ 0 then r
      else ({ r.1 with streaming := onv }, r.2.1, 0)
  else
    let r := ov13b10_stop_stream_inner sendFail tr
    ({ s with streaming := onv }, r.1, 0)

/-- Embedding of `ov13b10_s_power`.  Powering up applies the global
register array; powering down only drops the runtime-PM reference. -/
def ov13b10_s_power (sendFail : SendOracle) (pmRes : Int) (onv : Bool)
    (s : DriverState) (tr : Trace) : DriverState × Trace × Int :=
  if s.power_on = onv then (s, tr, 0)
  else if onv then
    if pmRes < 0 then (s, tr, pmRes)
    else
      match ov13b10_write_array sendFail ov13b10_global_regs tr with
      | (tr1, Except.error e) => (s, tr1, e)
      | (tr1, Except.ok _) => ({ s with power_on := true }, tr1, 0)
  else ({ s with power_on := false }, tr, 0)

/-- Embedding of `ov13b10_check_sensor_id`: a 3-byte read of the chip-id
register into `id` (initialised to 0 and left untouched by a failing
read); any value other than `CHIP_ID` is reported as -ENODEV, the read's
own return code being used only in the log message.  The write trace is
passed through untouched: the function issues no register writes. -/
def ov13b10_check_sensor_id (xfer : XferOracle) (tr : Trace) :
    Trace × Except Int Unit :=
  let r := ov13b10_read_reg xfer OV13B10_REG_CHIP_ID OV13B10_REG_VALUE_24BIT 0
  if r.1 ≠ CHIP_ID then (tr, Except.error (-ENODEV)) else (tr, Except.ok ())

/-! ### The power-on sequence -/

/-- Hardware side effects of the power-on/off sequences, in order. -/
inductive HwEvent
  | powerGpioSet (v : Bool)
  | pinsDefaultSel
  | clkEnabled
  | clkDisabled
  | resetGpioSet (v : Bool)
  | pwdnGpioSet (v : Bool)
  | regulatorsEnabled
  | regulatorsDisabled
  deriving Repr, DecidableEq

/-- Environment of `__ov13b10_power_on`: which optional resources exist
(the C guards them with IS_ERR / IS_ERR_OR_NULL) and the oracle results of
the fallible calls. -/
structure PowerEnv where
  hasPowerGpio : Bool
  hasPins : Bool
  hasResetGpio : Bool
  hasPwdnGpio : Bool
  pinctrlRes : Int
  clkSetRateRes : Int
  clkEnableRes : Int
  regEnableRes : Int
  deriving Repr, DecidableEq

/-- Embedding of `__ov13b10_power_on`.  A pinctrl or clk_set_rate failure
only logs; a clk_prepare_enable failure returns immediately with no
rollback; a regulator_bulk_enable failure disables the clock first. -/
def ov13b10_power_on_inner (env : PowerEnv) : List HwEvent × Except Int Unit :=
  let ev0 := if env.hasPowerGpio then [HwEvent.powerGpioSet true] else []
  let ev1 := ev0 ++
    (if env.hasPins ∧ 0 ≤ env.pinctrlRes then [HwEvent.pinsDefaultSel] else [])
  if env.clkEnableRes < 0 then (ev1, Except.error env.clkEnableRes)
  else
    let ev2 := ev1 ++ [HwEvent.clkEnabled] ++
      (if env.hasResetGpio then [HwEvent.resetGpioSet false] else [])
    if env.regEnableRes < 0 then
      (ev2 ++ [HwEvent.clkDisabled], Except.error env.regEnableRes)
    else
      let ev3 := ev2 ++ [HwEvent.regulatorsEnabled] ++
        (if env.hasResetGpio then [HwEvent.resetGpioSet true] else []) ++
        (if env.hasPwdnGpio then [HwEvent.pwdnGpioSet true] else [])
      (ev3, Except.ok ())

/-! ### Spec-side trace descriptions for the streaming claims -/

/-- The entries of a register program that precede the sentinel. -/
def progEntries (regs : List (Nat × Nat)) : List (Nat × Nat) :=
  regs.takeWhile (fun e => e.1 ≠ REG_NULL)

/-- The bus buffers a successful `ov13b10_write_array` issues. -/
def progTrace (regs : List (Nat × Nat)) : Trace :=
  (progEntries regs).map (fun e => writeRegBuf e.1 OV13B10_REG_VALUE_08BIT e.2)

/-- The bus buffers a successful translator pass for one control issues
(mirrors the write section of `ov13b10_set_ctrl`). -/
def ctrlWriteBufs (s : DriverState) (c : Nat × Int) : Trace :=
  if c.1 = V4L2_CID_EXPOSURE then
    [writeRegBuf OV13B10_REG_EXPOSURE OV13B10_REG_VALUE_24BIT (u32ofInt c.2)]
  else if c.1 = V4L2_CID_ANALOGUE_GAIN then
    [writeRegBuf OV13B10_REG_GAIN_H OV13B10_REG_VALUE_08BIT
       (u32ofInt (Int.land (Int.shiftRight c.2 OV13B10_GAIN_H_SHIFT) (OV13B10_GAIN_H_MASK : Nat))),
     writeRegBuf OV13B10_REG_GAIN_L OV13B10_REG_VALUE_08BIT
       (u32ofInt (Int.land c.2 (OV13B10_GAIN_L_MASK : Nat)))]
  else if c.1 = V4L2_CID_VBLANK then
    [writeRegBuf OV13B10_REG_VTS OV13B10_REG_VALUE_16BIT
       (u32ofInt (c.2 + (s.cur_mode.height : Int)))]
  else if c.1 = V4L2_CID_TEST_PATTERN then
    [writeRegBuf OV13B10_REG_TEST_PATTERN OV13B10_REG_VALUE_08BIT
       (if u32ofInt c.2 ≠ 0 then (u32ofInt c.2 - 1) ||| OV13B10_TEST_PATTERN_ENABLE
        else OV13B10_TEST_PATTERN_DISABLE)]
  else []

/-- The bus buffers of a successful whole setup pass. -/
def setupTrace (s : DriverState) (ctrls : List (Nat × Int)) : Trace :=
  (ctrls.map (ctrlWriteBufs s)).flatten

/-- The state change a translator pass for one control performs (mirrors
the range-cascade section of `ov13b10_set_ctrl`). -/
def ctrlStateUpd (s : DriverState) (c : Nat × Int) : DriverState :=
  let newMax : Int := (u32ofInt ((s.cur_mode.height : Int) + c.2 - 16) : Int)
  if c.1 = V4L2_CID_VBLANK then
    { s with exposure := v4l2_ctrl_modify_range s.exposure s.exposure.minimum newMax s.exposure.step s.exposure.default_value }
  else s

/-- The oracle under which every send succeeds. -/
def sendAllOk : SendOracle := fun _ _ => false

/-- The oracle under which exactly the send with trace position `n` fails. -/
def sendFailAt (n : Nat) : SendOracle := fun tr _ => tr.length = n

/-- A bus double for the round-trip claim: it stores the data bytes the
write sent at the written register and serves them back to a read of the
same register and length. -/
def busStore (reg len val : Nat) : XferOracle :=
  fun a l => if a = reg ∧ l = len then some ((writeRegBuf reg len val).drop 2) else none

/-- A read oracle whose every transfer fails. -/
def xferNone : XferOracle := fun _ _ => none

/-- A concrete driver state (full-resolution mode, streaming). -/
def sampleStreaming : DriverState :=
  { streaming := true, power_on := true, cur_mode := nthMode 0,
    exposure := { minimum := 4, maximum := 3180, step := 1,
                  default_value := 0xc00, val := 0xc00 },
    ctrls := [(V4L2_CID_VBLANK, 76), (V4L2_CID_EXPOSURE, 0xc00),
              (V4L2_CID_ANALOGUE_GAIN, 0x80), (V4L2_CID_TEST_PATTERN, 0)] }

/-- A concrete driver state (stopped, powered, small register program). -/
def sampleStopped : DriverState :=
  { streaming := false, power_on := true,
    cur_mode := { width := 2080, height := 1170,
                  max_fps := { numerator := 10000, denominator := 600000 },
                  exp_def := 0x0c00, hts_def := 0x0498, vts_def := 0x0c7c,
                  reg_list := [(0x3501, 0x06), (REG_NULL, 0x00)] },
    exposure := { minimum := 4, maximum := 1230, step := 1,
                  default_value := 0xc00, val := 0x400 },
    ctrls := [(V4L2_CID_VBLANK, 76), (V4L2_CID_EXPOSURE, 0x400)] }

/-- A power-on environment whose clock enable fails with - EIO. -/
def envClkFail : PowerEnv :=
  { hasPowerGpio := true, hasPins := true, hasResetGpio := true, hasPwdnGpio := true,
    pinctrlRes := 0, clkSetRateRes := 0, clkEnableRes := -5, regEnableRes := 0 }

/-- A power-on environment whose regulator bulk enable fails with - EIO. -/
def envRegFail : PowerEnv :=
  { hasPowerGpio := true, hasPins := true, hasResetGpio := true, hasPwdnGpio := true,
    pinctrlRes := 0, clkSetRateRes := 0, clkEnableRes := 0, regEnableRes := -5 }

/-! ## Theorems -/

/-! ### C4: length validation of the register accessors -/

/-- Claim C4, counterexample: `ov13b10_write_reg` with byte length 0 does
not fail with -EINVAL; it issues an (address-only) bus transaction and
succeeds.  The claim says it must fail with InvalidArgument without any
bus transaction. -/
theorem write_reg_len0_succeeds :
    ov13b10_write_reg sendAllOk 0x0100 0 1 [] = ([[0x01, 0x00]], Except.ok ()) := by
  rfl

/-- Claim C4 (amended): `ov13b10_read_reg` fails with -EINVAL exactly when
the byte length is 0 or greater than 4, but `ov13b10_write_reg` fails with
-EINVAL exactly when the byte length is greater than 4 (length 0 is not
rejected); when it rejects, no bus transaction is issued. -/
theorem reg_access_invalid_len (sendFail : SendOracle) (xfer : XferOracle)
    (reg len val v0 : Nat) (tr : Trace) :
    ((ov13b10_write_reg sendFail reg len val tr).2 = Except.error (-EINVAL) ↔ len > 4)
  ∧ (len > 4 → ov13b10_write_reg sendFail reg len val tr = (tr, Except.error (-EINVAL)))
  ∧ ((ov13b10_read_reg xfer reg len v0).2 = Except.error (-EINVAL) ↔ (len = 0 ∨ len > 4)) := by
  unfold ov13b10_write_reg ov13b10_read_reg
  refine ⟨?_, ?_, ?_⟩
  · split_ifs with h
    · simp [h]
    · by_cases hf : sendFail tr (writeRegBuf reg len val) <;>
        simp [hf, EINVAL, EIO, h]
  · intro h
    simp [h]
  · split_ifs with h
    · simp [EINVAL]
      omega
    · cases hx : xfer reg len <;> simp [hx, EINVAL, EIO] <;> omega

/-- Claim C4 amended, witness: at byte length 5 both accessors reject with
-EINVAL, the write issuing no transaction. -/
theorem reg_access_invalid_len_witness :
    ov13b10_write_reg sendAllOk 0x300a 5 0 [] = ([], Except.error (-EINVAL)) :=
  (reg_access_invalid_len sendAllOk xferNone 0x300a 5 0 0 []).2.1 (by decide)

/-! ### C7: stopping always succeeds and always stops -/

/-- Claim C7: `ov13b10_s_stream` off from the Streaming state issues the
standby write, transitions to Stopped and returns 0, for every bus oracle,
including ones under which the standby write fails. -/
theorem s_stream_stop_always_stops (sendFail : SendOracle) (pmRes : Int)
    (s : DriverState) (tr : Trace) (hs : s.streaming = true) :
    ov13b10_s_stream sendFail pmRes false s tr =
      ({ s with streaming := false },
       tr ++ [writeRegBuf OV13B10_REG_CTRL_MODE OV13B10_REG_VALUE_08BIT OV13B10_MODE_SW_STANDBY],
       0) := by
  unfold ov13b10_s_stream ov13b10_stop_stream_inner ov13b10_write_reg
  rw [hs]
  simp [OV13B10_REG_VALUE_08BIT]
  split <;> simp

/-- Claim C7, witness: stopping the concrete streaming state under an
always-failing bus still stops and returns 0. -/
theorem s_stream_stop_always_stops_witness :
    ov13b10_s_stream (fun _ _ => true) 0 false sampleStreaming [] =
      ({ sampleStreaming with streaming := false },
       [writeRegBuf OV13B10_REG_CTRL_MODE OV13B10_REG_VALUE_08BIT OV13B10_MODE_SW_STANDBY],
       0) :=
  s_stream_stop_always_stops (fun _ _ => true) 0 sampleStreaming [] rfl

/-! ### C8: requesting the held state is a no-op -/

/-- Claim C8: requesting the state already held returns success with no
bus transaction and no state change: `ov13b10_s_power` when `power_on`
already equals the request, and `ov13b10_s_stream` when `streaming`
already equals the request. -/
theorem held_state_noop (sendFail : SendOracle) (pmRes : Int) (onv : Bool)
    (s : DriverState) (tr : Trace) :
    (s.power_on = onv → ov13b10_s_power sendFail pmRes onv s tr = (s, tr, 0))
  ∧ (s.streaming = onv → ov13b10_s_stream sendFail pmRes onv s tr = (s, tr, 0)) := by
  constructor <;> intro h
  · unfold ov13b10_s_power
    simp [h]
  · unfold ov13b10_s_stream
    simp [h]

/-- Claim C8, witness: powering on the already-powered concrete state and
streaming-on the already-streaming concrete state are no-ops. -/
theorem held_state_noop_witness :
    ov13b10_s_power (fun _ _ => true) (-1) true sampleStreaming [] = (sampleStreaming, [], 0)
  ∧ ov13b10_s_stream (fun _ _ => true) (-1) true sampleStreaming [] = (sampleStreaming, [], 0) :=
  ⟨(held_state_noop (fun _ _ => true) (-1) true sampleStreaming []).1 rfl,
   (held_state_noop (fun _ _ => true) (-1) true sampleStreaming []).2 rfl⟩

/-! ### C9: write / read round trip through the big-endian packing -/

/-- Claim C9: for every 16-bit register address and every 16-bit value, a
2-byte write followed by a 2-byte read of the same register against a bus
double that stores the write's data bytes returns the original value; the
big-endian packing of the write is inverted by the big-endian accumulation
of the read. -/
theorem write_read_roundtrip (reg val v0 : Nat) (tr : Trace)
    (hreg : reg < 65536) (hval : val < 65536) :
    ov13b10_write_reg sendAllOk reg OV13B10_REG_VALUE_16BIT val tr =
      (tr ++ [writeRegBuf reg OV13B10_REG_VALUE_16BIT val], Except.ok ())
  ∧ ov13b10_read_reg (busStore reg OV13B10_REG_VALUE_16BIT val) reg
      OV13B10_REG_VALUE_16BIT v0 = (val, Except.ok ()) := by
  constructor
  · unfold ov13b10_write_reg
    simp [sendAllOk, OV13B10_REG_VALUE_16BIT]
  · unfold ov13b10_read_reg
    simp only [OV13B10_REG_VALUE_16BIT, busStore, writeRegBuf, cpu_to_be32, be32_to_cpu]
    norm_num [List.foldl]
    omega

/-- Claim C9, witness: the round trip at register 0x380e and value 0x1234. -/
theorem write_read_roundtrip_witness :
    ov13b10_write_reg sendAllOk 0x380e OV13B10_REG_VALUE_16BIT 0x1234 [] =
      ([writeRegBuf 0x380e OV13B10_REG_VALUE_16BIT 0x1234], Except.ok ())
  ∧ ov13b10_read_reg (busStore 0x380e OV13B10_REG_VALUE_16BIT 0x1234) 0x380e
      OV13B10_REG_VALUE_16BIT 0 = (0x1234, Except.ok ()) :=
  write_read_roundtrip 0x380e 0x1234 0 [] (by decide) (by decide)

/-! ### C10: identity verification -/

/-- Claim C10: `ov13b10_check_sensor_id` succeeds exactly when the 3-byte
read of register 0x300a yields the constant 0x560d42; a failed bus read is
reported as the same -ENODEV as a value mismatch (the accumulator still
holding 0), never as a distinct bus error; and the function issues no
register writes (the write trace passes through unchanged). -/
theorem check_sensor_id_spec (xfer : XferOracle) (tr : Trace) :
    (ov13b10_check_sensor_id xfer tr = (tr, Except.ok ()) ↔
      ∃ bs, xfer OV13B10_REG_CHIP_ID 3 = some bs ∧
        be32_to_cpu (List.replicate 1 0 ++ bs.take 3) = CHIP_ID)
  ∧ (xfer OV13B10_REG_CHIP_ID 3 = none →
      ov13b10_check_sensor_id xfer tr = (tr, Except.error (-ENODEV)))
  ∧ (ov13b10_check_sensor_id xfer tr).1 = tr := by
  unfold ov13b10_check_sensor_id ov13b10_read_reg
  refine ⟨?_, ?_, ?_⟩
  · cases hx : xfer OV13B10_REG_CHIP_ID 3 with
    | none =>
      simp [hx, OV13B10_REG_VALUE_24BIT, CHIP_ID, ENODEV]
    | some bs =>
      by_cases hb : be32_to_cpu (List.replicate 1 0 ++ bs.take 3) = CHIP_ID <;>
        simp [hx, hb, OV13B10_REG_VALUE_24BIT]
  · intro hx
    simp [hx, OV13B10_REG_VALUE_24BIT, CHIP_ID, ENODEV]
  · cases hx : xfer OV13B10_REG_CHIP_ID 3 <;>
      simp [hx, OV13B10_REG_VALUE_24BIT] <;> split <;> simp

/-- Claim C10, witness: under an always-failing read oracle the check
reports -ENODEV (not the read's own - EIO), with the trace untouched. -/
theorem check_sensor_id_spec_witness :
    ov13b10_check_sensor_id xferNone [] = ([], Except.error (-ENODEV)) :=
  (check_sensor_id_spec xferNone []).2.1 rfl

/-! ### C5: applying a register program -/

/-- Step lemma: a non-sentinel entry whose send goes through advances the
scan with its buffer appended. -/
theorem write_array_cons_ok (sendFail : SendOracle) (a v : Nat)
    (l : List (Nat × Nat)) (tr : Trace) (ha : a ≠ REG_NULL)
    (hs : sendFail tr (writeRegBuf a OV13B10_REG_VALUE_08BIT v) = false) :
    ov13b10_write_array sendFail ((a, v) :: l) tr =
      ov13b10_write_array sendFail l (tr ++ [writeRegBuf a OV13B10_REG_VALUE_08BIT v]) := by
  simp only [OV13B10_REG_VALUE_08BIT] at hs
  simp [ov13b10_write_array, ha, ov13b10_write_reg, OV13B10_REG_VALUE_08BIT, hs]

/-- Step lemma: a non-sentinel entry whose send fails stops the scan with
- EIO, the failed attempt still recorded. -/
theorem write_array_cons_fail (sendFail : SendOracle) (a v : Nat)
    (l : List (Nat × Nat)) (tr : Trace) (ha : a ≠ REG_NULL)
    (hs : sendFail tr (writeRegBuf a OV13B10_REG_VALUE_08BIT v) = true) :
    ov13b10_write_array sendFail ((a, v) :: l) tr =
      (tr ++ [writeRegBuf a OV13B10_REG_VALUE_08BIT v], Except.error (- EIO)) := by
  simp only [OV13B10_REG_VALUE_08BIT] at hs
  simp [ov13b10_write_array, ha, ov13b10_write_reg, OV13B10_REG_VALUE_08BIT, hs]

/-- Step lemma: the scan stops successfully at a sentinel entry. -/
theorem write_array_cons_sentinel (sendFail : SendOracle) (v : Nat)
    (l : List (Nat × Nat)) (tr : Trace) :
    ov13b10_write_array sendFail ((REG_NULL, v) :: l) tr = (tr, Except.ok ()) := by
  simp [ov13b10_write_array]

/-- `progEntries` keeps a non-sentinel head. -/
theorem progEntries_cons_ne (e : Nat × Nat) (l : List (Nat × Nat))
    (ha : e.1 ≠ REG_NULL) : progEntries (e :: l) = e :: progEntries l := by
  simp [progEntries, List.takeWhile_cons, ha]

/-- `progEntries` stops at a sentinel head. -/
theorem progEntries_cons_sentinel (v : Nat) (l : List (Nat × Nat)) :
    progEntries ((REG_NULL, v) :: l) = [] := by
  simp [progEntries, List.takeWhile_cons]

/-- On a bus where every send succeeds, `ov13b10_write_array` issues the
buffers of `progTrace` and succeeds. -/
theorem write_array_allOk (sendFail : SendOracle) (hok : ∀ t b, sendFail t b = false) :
    ∀ (regs : List (Nat × Nat)) (tr : Trace),
      ov13b10_write_array sendFail regs tr = (tr ++ progTrace regs, Except.ok ()) := by
  intro regs
  induction regs with
  | nil =>
    intro tr
    simp [ov13b10_write_array, progTrace, progEntries]
  | cons e rest ih =>
    intro tr
    obtain ⟨a, v⟩ := e
    by_cases ha : a = REG_NULL
    · subst ha
      rw [write_array_cons_sentinel, progTrace, progEntries_cons_sentinel]
      simp
    · rw [write_array_cons_ok sendFail a v rest tr ha (hok tr _), ih]
      simp [progTrace, progEntries_cons_ne (a, v) rest ha]

/-- The entries before the sentinel of a sentinel-terminated program are
exactly the part before the sentinel. -/
theorem progEntries_sentinel : ∀ (pre rest : List (Nat × Nat)),
    (∀ e ∈ pre, e.1 ≠ REG_NULL) →
    progEntries (pre ++ (REG_NULL, 0) :: rest) = pre := by
  intro pre
  induction pre with
  | nil =>
    intro rest _
    exact progEntries_cons_sentinel 0 rest
  | cons e pre ih =>
    intro rest hpre
    rw [List.cons_append, progEntries_cons_ne e _ (hpre e (by simp)),
        ih rest (fun x hx => hpre x (List.mem_cons_of_mem _ hx))]

/-- Under the oracle failing exactly the send at trace position
`tr.length + k`, `ov13b10_write_array` on a sentinel-free list issues the
first k writes, attempts the (k+1)-st, and stops with its - EIO. -/
theorem write_array_failAt (rest : List (Nat × Nat)) :
    ∀ (pre : List (Nat × Nat)) (k : Nat) (tr : Trace), k < pre.length →
      (∀ e ∈ pre, e.1 ≠ REG_NULL) →
      ov13b10_write_array (sendFailAt (tr.length + k)) (pre ++ (REG_NULL, 0) :: rest) tr =
        (tr ++ (pre.take (k + 1)).map
          (fun e => writeRegBuf e.1 OV13B10_REG_VALUE_08BIT e.2),
         Except.error (- EIO)) := by
  intro pre
  induction pre with
  | nil =>
    intro k tr hk
    simp at hk
  | cons e pre ih =>
    intro k tr hk hpre
    obtain ⟨a, v⟩ := e
    have ha : a ≠ REG_NULL := hpre (a, v) (by simp)
    cases k with
    | zero =>
      rw [List.cons_append,
          write_array_cons_fail (sendFailAt (tr.length + 0)) a v _ tr ha (by simp [sendFailAt])]
      simp
    | succ k =>
      have hfalse : sendFailAt (tr.length + (k + 1)) tr
          (writeRegBuf a OV13B10_REG_VALUE_08BIT v) = false := by
        simp [sendFailAt]
      have hlen : (tr ++ [writeRegBuf a OV13B10_REG_VALUE_08BIT v]).length + k =
          tr.length + (k + 1) := by
        simp only [List.length_append, List.length_cons, List.length_nil]
        omega
      have hrec := ih k (tr ++ [writeRegBuf a OV13B10_REG_VALUE_08BIT v])
        (by simp at hk; omega) (fun x hx => hpre x (List.mem_cons_of_mem _ hx))
      rw [hlen] at hrec
      rw [List.cons_append,
          write_array_cons_ok (sendFailAt (tr.length + (k + 1))) a v _ tr ha hfalse, hrec,
          List.take_succ_cons, List.map_cons]
      simp

/-- Claim C5: on a register program `pre ++ sentinel :: rest` (no sentinel
inside `pre`), `ov13b10_write_array` issues exactly one single-byte write
per entry of `pre`, in program order, and succeeds, on a bus where every
send goes through; and when the send of entry k fails, it returns that
first error (- EIO) having issued only the first k+1 attempts, entries
after k staying unsent (no rollback of the earlier writes). -/
theorem write_array_program (pre rest : List (Nat × Nat)) (tr : Trace)
    (hpre : ∀ e ∈ pre, e.1 ≠ REG_NULL) :
    (∀ sendFail : SendOracle, (∀ t b, sendFail t b = false) →
      ov13b10_write_array sendFail (pre ++ (REG_NULL, 0) :: rest) tr =
        (tr ++ pre.map (fun e => writeRegBuf e.1 OV13B10_REG_VALUE_08BIT e.2),
         Except.ok ()))
  ∧ (∀ k, k < pre.length →
      ov13b10_write_array (sendFailAt (tr.length + k)) (pre ++ (REG_NULL, 0) :: rest) tr =
        (tr ++ (pre.take (k + 1)).map
          (fun e => writeRegBuf e.1 OV13B10_REG_VALUE_08BIT e.2),
         Except.error (- EIO))) := by
  constructor
  · intro sendFail hok
    rw [write_array_allOk sendFail hok]
    unfold progTrace
    rw [progEntries_sentinel pre rest hpre]
  · intro k hk
    exact write_array_failAt rest pre k tr hk hpre

/-- Claim C5, witness: a two-entry program with sentinel, fully applied on
a clean bus, and stopped at its second entry under a failing bus. -/
theorem write_array_program_witness :
    ov13b10_write_array sendAllOk
        [(0x3501, 0x06), (0x3662, 0x88), (REG_NULL, 0x00)] [] =
      ([[0x35, 0x01, 0x06], [0x36, 0x62, 0x88]], Except.ok ())
  ∧ ov13b10_write_array (sendFailAt 1)
        [(0x3501, 0x06), (0x3662, 0x88), (REG_NULL, 0x00)] [] =
      ([[0x35, 0x01, 0x06], [0x36, 0x62, 0x88]], Except.error (- EIO)) := by
  have h := write_array_program [(0x3501, 0x06), (0x3662, 0x88)] [] []
    (by intro e he; fin_cases he <;> decide)
  constructor
  · have h1 := h.1 sendAllOk (fun _ _ => rfl)
    simpa using h1
  · have h2 := h.2 1 (by decide)
    simpa using h2

/-! ### C6: power-on error handling -/

/-- Claim C6: in `__ov13b10_power_on`, a clock-enable failure aborts and
returns the clock error with the power gpio still asserted and the pins
still configured (no undo events); a regulator bulk-enable failure first
disables the clock enabled earlier and then returns the power error
(partial rollback).  The event lists are exact, so in the first case no
disable / rollback event occurs at all. -/
theorem power_on_rollback (env : PowerEnv) :
    (env.clkEnableRes < 0 →
      ov13b10_power_on_inner env =
        ((if env.hasPowerGpio then [HwEvent.powerGpioSet true] else []) ++
         (if env.hasPins ∧ 0 ≤ env.pinctrlRes then [HwEvent.pinsDefaultSel] else []),
         Except.error env.clkEnableRes))
  ∧ (0 ≤ env.clkEnableRes → env.regEnableRes < 0 →
      ov13b10_power_on_inner env =
        ((if env.hasPowerGpio then [HwEvent.powerGpioSet true] else []) ++
         (if env.hasPins ∧ 0 ≤ env.pinctrlRes then [HwEvent.pinsDefaultSel] else []) ++
         [HwEvent.clkEnabled] ++
         (if env.hasResetGpio then [HwEvent.resetGpioSet false] else []) ++
         [HwEvent.clkDisabled],
         Except.error env.regEnableRes)) := by
  constructor
  · intro hclk
    unfold ov13b10_power_on_inner
    simp [hclk]
  · intro hclk hreg
    have hclk2 : ¬ env.clkEnableRes < 0 := not_lt.mpr hclk
    unfold ov13b10_power_on_inner
    simp [hclk2, hreg]

/-- Claim C6, witness: the two failure scenarios at concrete environments
with every optional resource present. -/
theorem power_on_rollback_witness :
    ov13b10_power_on_inner envClkFail =
      ([HwEvent.powerGpioSet true, HwEvent.pinsDefaultSel], Except.error (-5))
  ∧ ov13b10_power_on_inner envRegFail =
      ([HwEvent.powerGpioSet true, HwEvent.pinsDefaultSel, HwEvent.clkEnabled,
        HwEvent.resetGpioSet false, HwEvent.clkDisabled], Except.error (-5)) := by
  constructor
  · have h := (power_on_rollback envClkFail).1 (by decide)
    simpa using h
  · have h := (power_on_rollback envRegFail).2 (by decide) (by decide)
    simpa using h

/-! ### The control translator: supporting lemmas -/

/-- `ov13b10_set_ctrl` on a bus where every send succeeds: it performs the
mirrored state update, appends the mirrored buffers, and returns 0. -/
theorem set_ctrl_allOk (sendFail : SendOracle) (hok : ∀ t b, sendFail t b = false)
    (id : Nat) (v : Int) (s : DriverState) (tr : Trace) :
    ov13b10_set_ctrl sendFail true id v s tr =
      (ctrlStateUpd s (id, v), tr ++ ctrlWriteBufs s (id, v), 0) := by
  have hVE : ¬ V4L2_CID_VBLANK = V4L2_CID_EXPOSURE := by decide
  have hVG : ¬ V4L2_CID_VBLANK = V4L2_CID_ANALOGUE_GAIN := by decide
  have hEV : ¬ V4L2_CID_EXPOSURE = V4L2_CID_VBLANK := by decide
  have hGV : ¬ V4L2_CID_ANALOGUE_GAIN = V4L2_CID_VBLANK := by decide
  have hGE : ¬ V4L2_CID_ANALOGUE_GAIN = V4L2_CID_EXPOSURE := by decide
  have hTV : ¬ V4L2_CID_TEST_PATTERN = V4L2_CID_VBLANK := by decide
  have hTE : ¬ V4L2_CID_TEST_PATTERN = V4L2_CID_EXPOSURE := by decide
  have hTG : ¬ V4L2_CID_TEST_PATTERN = V4L2_CID_ANALOGUE_GAIN := by decide
  unfold ov13b10_set_ctrl ctrlStateUpd ctrlWriteBufs ov13b10_enable_test_pattern
    ov13b10_write_reg
  by_cases h1 : id = V4L2_CID_VBLANK
  · subst h1
    simp [hVE, hVG, hok, errCode, OV13B10_REG_VALUE_16BIT]
  · by_cases h2 : id = V4L2_CID_EXPOSURE
    · subst h2
      simp [hEV, hok, errCode, OV13B10_REG_VALUE_24BIT]
    · by_cases h3 : id = V4L2_CID_ANALOGUE_GAIN
      · subst h3
        simp [hGV, hGE, hok, errCode, OV13B10_REG_VALUE_08BIT]
        decide
      · by_cases h4 : id = V4L2_CID_TEST_PATTERN
        · subst h4
          simp [hTV, hTE, hTG, hok, errCode, OV13B10_REG_VALUE_08BIT]
        · simp [h1, h2, h3, h4]

/-- The translator never touches the stream flag, the active mode or the
control list, under any oracle and any power state. -/
theorem set_ctrl_preserves (sendFail : SendOracle) (inUse : Bool) (id : Nat) (v : Int)
    (s : DriverState) (tr : Trace) :
    (ov13b10_set_ctrl sendFail inUse id v s tr).1.streaming = s.streaming
  ∧ (ov13b10_set_ctrl sendFail inUse id v s tr).1.cur_mode = s.cur_mode
  ∧ (ov13b10_set_ctrl sendFail inUse id v s tr).1.ctrls = s.ctrls := by
  unfold ov13b10_set_ctrl
  split_ifs <;> simp

/-- The mirrored state update depends on the driver state only through the
active mode, which it preserves. -/
theorem ctrlStateUpd_cur_mode (s : DriverState) (c : Nat × Int) :
    (ctrlStateUpd s c).cur_mode = s.cur_mode := by
  unfold ctrlStateUpd
  split_ifs <;> rfl

/-- The mirrored buffers of one control depend on the state only through
the active mode. -/
theorem ctrlWriteBufs_congr (s1 s2 : DriverState) (c : Nat × Int)
    (h : s1.cur_mode = s2.cur_mode) : ctrlWriteBufs s1 c = ctrlWriteBufs s2 c := by
  unfold ctrlWriteBufs
  rw [h]

/-- `setupTrace` depends on the state only through the active mode. -/
theorem setupTrace_congr (s1 s2 : DriverState) (ctrls : List (Nat × Int))
    (h : s1.cur_mode = s2.cur_mode) : setupTrace s1 ctrls = setupTrace s2 ctrls := by
  unfold setupTrace
  rw [List.map_congr_left fun c _ => ctrlWriteBufs_congr s1 s2 c h]

/-- Unfolding step of the setup pass when one control succeeds. -/
theorem handler_setup_cons (sendFail : SendOracle) (id : Nat) (v : Int)
    (rest : List (Nat × Int)) (s : DriverState) (tr : Trace)
    (s1 : DriverState) (tr1 : Trace)
    (h : ov13b10_set_ctrl sendFail true id v s tr = (s1, tr1, 0)) :
    v4l2_ctrl_handler_setup sendFail ((id, v) :: rest) s tr =
      v4l2_ctrl_handler_setup sendFail rest s1 tr1 := by
  conv_lhs => simp only [v4l2_ctrl_handler_setup]
  rw [h]
  simp

/-- The setup pass on a bus where every send succeeds: it appends exactly
the mirrored buffers of every control, in order, returns 0, and preserves
the stream flag and active mode. -/
theorem handler_setup_allOk (sendFail : SendOracle) (hok : ∀ t b, sendFail t b = false) :
    ∀ (ctrls : List (Nat × Int)) (s : DriverState) (tr : Trace),
      (v4l2_ctrl_handler_setup sendFail ctrls s tr).2.1 = tr ++ setupTrace s ctrls
    ∧ (v4l2_ctrl_handler_setup sendFail ctrls s tr).2.2 = 0
    ∧ (v4l2_ctrl_handler_setup sendFail ctrls s tr).1.streaming = s.streaming
    ∧ (v4l2_ctrl_handler_setup sendFail ctrls s tr).1.cur_mode = s.cur_mode := by
  intro ctrls
  induction ctrls with
  | nil =>
    intro s tr
    simp [v4l2_ctrl_handler_setup, setupTrace]
  | cons c rest ih =>
    intro s tr
    obtain ⟨id, v⟩ := c
    have hstep := set_ctrl_allOk sendFail hok id v s tr
    have hrec := ih (ctrlStateUpd s (id, v)) (tr ++ ctrlWriteBufs s (id, v))
    rw [handler_setup_cons sendFail id v rest s tr (ctrlStateUpd s (id, v))
          (tr ++ ctrlWriteBufs s (id, v)) hstep]
    refine ⟨?_, hrec.2.1, ?_, ?_⟩
    · rw [hrec.1,
          setupTrace_congr (ctrlStateUpd s (id, v)) s rest (ctrlStateUpd_cur_mode s (id, v))]
      simp [setupTrace, List.append_assoc]
    · rw [hrec.2.2.1]
      unfold ctrlStateUpd
      split_ifs <;> rfl
    · rw [hrec.2.2.2, ctrlStateUpd_cur_mode]

/-- The setup pass preserves the stream flag under any oracle. -/
theorem handler_setup_preserves (sendFail : SendOracle) :
    ∀ (ctrls : List (Nat × Int)) (s : DriverState) (tr : Trace),
      (v4l2_ctrl_handler_setup sendFail ctrls s tr).1.streaming = s.streaming := by
  intro ctrls
  induction ctrls with
  | nil =>
    intro s tr
    rfl
  | cons c rest ih =>
    intro s tr
    obtain ⟨id, v⟩ := c
    unfold v4l2_ctrl_handler_setup
    by_cases hz : (ov13b10_set_ctrl sendFail true id v s tr).2.2 = 0
    · rw [if_pos hz, ih, (set_ctrl_preserves sendFail true id v s tr).1]
    · rw [if_neg hz, (set_ctrl_preserves sendFail true id v s tr).1]

/-- `__ov13b10_start_stream` preserves the stream flag under any oracle. -/
theorem start_stream_inner_preserves (sendFail : SendOracle) (s : DriverState) (tr : Trace) :
    (ov13b10_start_stream_inner sendFail s tr).1.streaming = s.streaming := by
  unfold ov13b10_start_stream_inner
  cases hwa : ov13b10_write_array sendFail s.cur_mode.reg_list tr with
  | mk tr1 r =>
    cases r with
    | error e => rfl
    | ok u =>
      simp only
      split_ifs with hz
      · exact handler_setup_preserves sendFail s.ctrls s tr1
      · exact handler_setup_preserves sendFail s.ctrls s tr1

/-- `__ov13b10_start_stream` on a bus where every send succeeds: the mode
program's buffers, then the setup buffers, then the streaming write. -/
theorem start_stream_inner_allOk (sendFail : SendOracle)
    (hok : ∀ t b, sendFail t b = false) (s : DriverState) (tr : Trace) :
    (ov13b10_start_stream_inner sendFail s tr).2.1 =
      tr ++ progTrace s.cur_mode.reg_list ++ setupTrace s s.ctrls ++
        [writeRegBuf OV13B10_REG_CTRL_MODE OV13B10_REG_VALUE_08BIT OV13B10_MODE_STREAMING]
  ∧ (ov13b10_start_stream_inner sendFail s tr).2.2 = 0
  ∧ (ov13b10_start_stream_inner sendFail s tr).1.streaming = s.streaming := by
  have hsetup := handler_setup_allOk sendFail hok s.ctrls s (tr ++ progTrace s.cur_mode.reg_list)
  unfold ov13b10_start_stream_inner
  rw [write_array_allOk sendFail hok]
  simp only
  rw [if_neg (by rw [hsetup.2.1]; simp)]
  unfold ov13b10_write_reg
  refine ⟨?_, ?_, hsetup.2.2.1⟩
  · rw [hsetup.1]
    simp [hok, OV13B10_REG_VALUE_08BIT]
  · simp [hok, OV13B10_REG_VALUE_08BIT, errCode]

/-! ### C2: the start-streaming sequence -/

/-- The intended start sequence, provable only in the embedding's
semantics where a register program ends at the sentinel or at the end of
the list: from Stopped with the power reference acquired, on a bus where
every send succeeds, the trace is the program's pre-sentinel entries, then
every held control's translator buffers, then the mode-control streaming
write, and the streaming flag is set; any `__ov13b10_start_stream` failure
leaves the flag false and surfaces its error unchanged.  On the driver's
actual tables the C code does not realize this sequence: they lack the
sentinel the loop needs (`register_tables_lack_sentinel`). -/
theorem start_stream_order (sendFail : SendOracle) (pmRes : Int) (s : DriverState)
    (tr : Trace) (hs : s.streaming = false) (hpm : 0 ≤ pmRes) :
    ((∀ t b, sendFail t b = false) →
      ∃ s2, ov13b10_s_stream sendFail pmRes true s tr =
          (s2, tr ++ progTrace s.cur_mode.reg_list ++ setupTrace s s.ctrls ++
            [writeRegBuf OV13B10_REG_CTRL_MODE OV13B10_REG_VALUE_08BIT OV13B10_MODE_STREAMING],
           0)
        ∧ s2.streaming = true)
  ∧ (∀ s1 tr1 r1, ov13b10_start_stream_inner sendFail s tr = (s1, tr1, r1) → r1 ≠ 0 →
      ov13b10_s_stream sendFail pmRes true s tr = (s1, tr1, r1) ∧ s1.streaming = false) := by
  constructor
  · intro hok
    have hinner := start_stream_inner_allOk sendFail hok s tr
    refine ⟨{ (ov13b10_start_stream_inner sendFail s tr).1 with streaming := true }, ?_, rfl⟩
    unfold ov13b10_s_stream
    rw [hs, if_neg (by simp), if_pos rfl, if_neg (by omega), if_neg (by rw [hinner.2.1]; simp)]
    rw [Prod.mk.injEq, Prod.mk.injEq, hinner.1]
    exact ⟨rfl, rfl, rfl⟩
  · intro s1 tr1 r1 heq hr
    have hpres := start_stream_inner_preserves sendFail s tr
    rw [heq] at hpres
    simp only at hpres
    constructor
    · unfold ov13b10_s_stream
      rw [hs, if_neg (by simp), if_pos rfl, if_neg (by omega), heq, if_pos (by simpa using hr)]
    · rw [hpres, hs]

/-- `start_stream_order` at the concrete stopped state, whose one-entry
sentinel-terminated program plus two controls yield the exact four-buffer
trace, streaming set. -/
theorem start_stream_order_witness :
    ∃ s2, ov13b10_s_stream sendAllOk 0 true sampleStopped [] =
        (s2, [] ++ progTrace sampleStopped.cur_mode.reg_list ++
          setupTrace sampleStopped sampleStopped.ctrls ++
          [writeRegBuf OV13B10_REG_CTRL_MODE OV13B10_REG_VALUE_08BIT OV13B10_MODE_STREAMING],
         0)
      ∧ s2.streaming = true :=
  (start_stream_order sendAllOk 0 sampleStopped [] rfl (by decide)).1 (fun _ _ => rfl)

set_option maxRecDepth 4096 in
/-- Claim C2 (code bug): the claim states the intended start sequence --
every entry of the active mode's register program, then the setup pass,
then the streaming write -- but the code cannot realize it on any actual
catalog mode: `ov13b10_write_array`'s loop terminates only at a `REG_NULL`
(0xFFFF) sentinel entry, and no register table of the driver (neither the
global table nor any mode's program) contains one, so the C loop indexes
past the end of the table before the setup pass can begin.  This theorem
evaluates the tables: every entry of every actual register program
differs from the sentinel address. -/
theorem register_tables_lack_sentinel :
    (∀ m ∈ supported_modes, ∀ e ∈ m.reg_list, e.1 ≠ REG_NULL)
  ∧ (∀ e ∈ ov13b10_global_regs, e.1 ≠ REG_NULL) := by
  decide

/-! ### C3: the vertical-blank range cascade -/

/-- `ov13b10_set_ctrl` on the VBLANK id, fully evaluated: the exposure
maximum becomes the u32 computation `height + v - 16`, and the VTS write
(only when the device is in use) carries `v + height` as u32. -/
theorem set_ctrl_vblank (sendFail : SendOracle) (inUse : Bool) (v : Int)
    (s : DriverState) (tr : Trace) (hok : ∀ t b, sendFail t b = false) :
    ov13b10_set_ctrl sendFail inUse V4L2_CID_VBLANK v s tr =
      (ctrlStateUpd s (V4L2_CID_VBLANK, v),
       if inUse then
         tr ++ [writeRegBuf OV13B10_REG_VTS OV13B10_REG_VALUE_16BIT
                  (u32ofInt (v + (s.cur_mode.height : Int)))]
       else tr,
       0) := by
  have h2 : ¬ V4L2_CID_VBLANK = V4L2_CID_EXPOSURE := by decide
  have h3 : ¬ V4L2_CID_VBLANK = V4L2_CID_ANALOGUE_GAIN := by decide
  cases inUse with
  | false =>
    unfold ov13b10_set_ctrl ctrlStateUpd
    simp
  | true =>
    have h := set_ctrl_allOk sendFail hok V4L2_CID_VBLANK v s tr
    rw [h]
    unfold ctrlWriteBufs
    simp [h2, h3]

/-- The u32 round trip of the exposure-maximum computation is the identity
on the realistic range. -/
theorem u32ofInt_id (x : Int) (h0 : 0 ≤ x) (h1 : x < 4294967296) :
    (u32ofInt x : Int) = x := by
  unfold u32ofInt
  omega

/-- Claim C3: a VBLANK value v accepted by the translator recomputes the
exposure maximum to `cur_mode.height + v - 16` even when the device is not
in use and no register write at all is issued (so the range cascade
precedes any write); when the device is in use, the only write issued is
the VTS write carrying `v + cur_mode.height`; and a second VBLANK value v2
updates the exposure maximum again while issuing only its own VTS write
(no exposure operation). -/
theorem vblank_range_cascade (sendFail : SendOracle) (v v2 : Int) (s : DriverState)
    (tr : Trace) (hok : ∀ t b, sendFail t b = false)
    (hlo : 16 ≤ (s.cur_mode.height : Int) + v)
    (hhi : (s.cur_mode.height : Int) + v - 16 < 4294967296)
    (hlo2 : 16 ≤ (s.cur_mode.height : Int) + v2)
    (hhi2 : (s.cur_mode.height : Int) + v2 - 16 < 4294967296) :
    ((ov13b10_set_ctrl sendFail false V4L2_CID_VBLANK v s tr).1.exposure.maximum =
        (s.cur_mode.height : Int) + v - 16
      ∧ (ov13b10_set_ctrl sendFail false V4L2_CID_VBLANK v s tr).2.1 = tr)
  ∧ (ov13b10_set_ctrl sendFail true V4L2_CID_VBLANK v s tr).1.exposure.maximum =
      (s.cur_mode.height : Int) + v - 16
  ∧ (ov13b10_set_ctrl sendFail true V4L2_CID_VBLANK v s tr).2.1 =
      tr ++ [writeRegBuf OV13B10_REG_VTS OV13B10_REG_VALUE_16BIT
               (u32ofInt (v + (s.cur_mode.height : Int)))]
  ∧ (ov13b10_set_ctrl sendFail true V4L2_CID_VBLANK v2
        (ov13b10_set_ctrl sendFail true V4L2_CID_VBLANK v s tr).1
        (ov13b10_set_ctrl sendFail true V4L2_CID_VBLANK v s tr).2.1).1.exposure.maximum =
      (s.cur_mode.height : Int) + v2 - 16
  ∧ (ov13b10_set_ctrl sendFail true V4L2_CID_VBLANK v2
        (ov13b10_set_ctrl sendFail true V4L2_CID_VBLANK v s tr).1
        (ov13b10_set_ctrl sendFail true V4L2_CID_VBLANK v s tr).2.1).2.1 =
      (ov13b10_set_ctrl sendFail true V4L2_CID_VBLANK v s tr).2.1 ++
        [writeRegBuf OV13B10_REG_VTS OV13B10_REG_VALUE_16BIT
           (u32ofInt (v2 + (s.cur_mode.height : Int)))] := by
  have e1 := set_ctrl_vblank sendFail false v s tr hok
  have e2 := set_ctrl_vblank sendFail true v s tr hok
  have emax : (u32ofInt ((s.cur_mode.height : Int) + v - 16) : Int) =
      (s.cur_mode.height : Int) + v - 16 := u32ofInt_id _ (by omega) hhi
  have emax2 : (u32ofInt ((s.cur_mode.height : Int) + v2 - 16) : Int) =
      (s.cur_mode.height : Int) + v2 - 16 := u32ofInt_id _ (by omega) hhi2
  refine ⟨⟨?_, ?_⟩, ?_, ?_, ?_, ?_⟩
  · rw [e1]
    simp [ctrlStateUpd, v4l2_ctrl_modify_range, emax]
  · rw [e1]
    simp
  · rw [e2]
    simp [ctrlStateUpd, v4l2_ctrl_modify_range, emax]
  · rw [e2]
    simp
  · rw [e2, set_ctrl_vblank sendFail true v2 _ _ hok]
    simp [ctrlStateUpd, v4l2_ctrl_modify_range, emax2]
  · rw [e2, set_ctrl_vblank sendFail true v2 _ _ hok]
    simp [ctrlStateUpd]

/-- Claim C3, witness: the cascade at the concrete stopped state (height
1170) with v = 76 and v2 = 100. -/
theorem vblank_range_cascade_witness :
    (ov13b10_set_ctrl sendAllOk true V4L2_CID_VBLANK 76 sampleStopped []).1.exposure.maximum =
      (1170 : Int) + 76 - 16 :=
  ((vblank_range_cascade sendAllOk 76 100 sampleStopped [] (fun _ _ => rfl)
      (by decide) (by decide) (by decide) (by decide)).2.1)

/-! ### C1: best-fit mode selection -/

/-- On requested sizes (and mode sizes) below 2^30 the scan's wrapping
distance coincides with the true Manhattan distance. -/
theorem reso_dist_spec (mw mh w h : Nat) (fps : V4l2Fract) (hts vts ed : Nat)
    (rl : List (Nat × Nat)) (hmw : mw < 1073741824) (hmh : mh < 1073741824)
    (hw : w < 1073741824) (hh : h < 1073741824) :
    ov13b10_get_reso_dist
      { width := mw, height := mh, max_fps := fps, hts_def := hts, vts_def := vts,
        exp_def := ed, reg_list := rl } w h =
      ((ndist mw w + ndist mh h : Nat) : Int) := by
  unfold ov13b10_get_reso_dist u32sub u32 toS32 kabs s32wrap ndist
  simp only
  split_ifs <;> push_cast <;> omega

/-- Claim C1, counterexample: at the requested size (2147487856, 2147486769)
the wrapping int arithmetic of the scan (unsigned subtraction, the kernel
abs() reinterpretation, wrapping addition, and the -1 sentinel being a
reachable distance value) makes `ov13b10_find_best_fit` return the
2080x1170 entry although the first entry (4208x3120) has a strictly
smaller Manhattan distance. -/
theorem find_best_fit_not_min :
    specDist (nthMode 0) 2147487856 2147486769 <
      specDist (ov13b10_find_best_fit 2147487856 2147486769) 2147487856 2147486769 := by
  decide

set_option maxHeartbeats 1000000 in
/-- Claim C1 (amended): for every requested width and height below 2^30
(every realistic frame size; large enough values overflow the scan's int
arithmetic), `ov13b10_find_best_fit` returns the catalog entry of the
5-mode table minimizing the Manhattan distance
`|mode.width - w| + |mode.height - h|`, and on ties the first such entry
in catalog order; it never fails since the catalog is non-empty. -/
theorem find_best_fit_spec (w h : Nat) (hw : w < 1073741824) (hh : h < 1073741824) :
    ∃ i, i < 5 ∧ ov13b10_find_best_fit w h = nthMode i ∧
      (∀ j, j < 5 → specDist (nthMode i) w h ≤ specDist (nthMode j) w h) ∧
      (∀ j, j < i → specDist (nthMode i) w h < specDist (nthMode j) w h) := by
  have e0 := reso_dist_spec 4208 3120 w h ⟨10000, 300000⟩ 0x0498 0x0c7c 0x0c00
    mode_4208x3120_regs (by norm_num) (by norm_num) hw hh
  have e1 := reso_dist_spec 4160 3120 w h ⟨10000, 300000⟩ 0x0498 0x0c7c 0x0c00
    mode_4160x3120_regs (by norm_num) (by norm_num) hw hh
  have e2 := reso_dist_spec 4160 2340 w h ⟨10000, 300000⟩ 0x0498 0x0c7c 0x0c00
    mode_4160x2340_regs (by norm_num) (by norm_num) hw hh
  have e3 := reso_dist_spec 2104 1560 w h ⟨10000, 600000⟩ 0x0498 0x0c7c 0x0c00
    mode_2104x1560_regs (by norm_num) (by norm_num) hw hh
  have e4 := reso_dist_spec 2080 1170 w h ⟨10000, 600000⟩ 0x0498 0x0c7c 0x0c00
    mode_2080x1170_regs (by norm_num) (by norm_num) hw hh
  have s0 : specDist (nthMode 0) w h = ndist 4208 w + ndist 3120 h := rfl
  have s1 : specDist (nthMode 1) w h = ndist 4160 w + ndist 3120 h := rfl
  have s2 : specDist (nthMode 2) w h = ndist 4160 w + ndist 2340 h := rfl
  have s3 : specDist (nthMode 3) w h = ndist 2104 w + ndist 1560 h := rfl
  have s4 : specDist (nthMode 4) w h = ndist 2080 w + ndist 1170 h := rfl
  simp only [ov13b10_find_best_fit, supported_modes, bestFitLoop, e0, e1, e2, e3, e4,
    eq_self_iff_true, true_or, if_true]
  split_ifs
  all_goals (first
    | refine ⟨0, by omega, rfl, ?_, ?_⟩
    | refine ⟨1, by omega, rfl, ?_, ?_⟩
    | refine ⟨2, by omega, rfl, ?_, ?_⟩
    | refine ⟨3, by omega, rfl, ?_, ?_⟩
    | refine ⟨4, by omega, rfl, ?_, ?_⟩)
  all_goals intro j hj
  all_goals interval_cases j
  all_goals (simp only [s0, s1, s2, s3, s4]; simp only [ndist, false_or, not_or] at *; omega)

/-- Claim C1 amended, witness: the request (2104, 1292) is best fit by the
2080x1170 entry (index 4), strictly closer than every earlier entry. -/
theorem find_best_fit_spec_witness :
    ∃ i, i < 5 ∧ ov13b10_find_best_fit 2104 1292 = nthMode i ∧
      (∀ j, j < 5 → specDist (nthMode i) 2104 1292 ≤ specDist (nthMode j) 2104 1292) ∧
      (∀ j, j < i → specDist (nthMode i) 2104 1292 < specDist (nthMode j) 2104 1292) :=
  find_best_fit_spec 2104 1292 (by decide) (by decide)

end Ov13b10
